import Mathlib

/-!
Shallow embedding of the scheduling / synchronization core of the
esp32-display-panel firmware (brightness scheduler, theme scheduler,
time manager, config manager, outbound HTTP dispatch queue), together
with theorems settling the specification claims about it.

Conventions of the embedding:
* `millis()` readings are `Nat` values understood as uint32 ticks;
  wherever the C++ source performs 32-bit arithmetic on them
  (subtraction, addition) the embedding reduces modulo 2^32 explicitly.
* Calls into collaborators (`uiManager.setBrightness`,
  `uiManager.requestRebuild`, `themeEngine.setTheme`, `getLocalTime`,
  WiFi status, JSON deserialization) are modelled as explicit inputs or
  outputs of the transition functions.
* Member functions that mutate the C++ objects become functions from
  the old state record to the new state record.
-/

/-! ## uint32 tick arithmetic -/

/-- Modulus of the 32-bit unsigned tick counter returned by `millis()`. -/
def U32_MOD : Nat := 4294967296

/-- uint32 subtraction `a - b` as performed on `unsigned long` values on the
ESP32 (`millis() - wakeStartTime` and the sync-interval checks). -/
def u32sub (a b : Nat) : Nat := (U32_MOD + a % U32_MOD - b % U32_MOD) % U32_MOD

/-- uint32 addition `a + b` (used for `millis() + WAKE_GRACE_PERIOD_MS`). -/
def u32add (a b : Nat) : Nat := (a + b) % U32_MOD

/-! ## struct tm / getLocalTime model (time_manager.cpp) -/

/-- The fields of `struct tm` that the core reads. -/
structure TmInfo where
  tm_hour : Nat
  tm_min : Nat
  tm_sec : Nat
  tm_year : Nat
deriving Repr, DecidableEq

/-- `TimeManager::getCurrentHour`: returns 0 when `getLocalTime` fails
(time_manager.cpp lines 50-56). The `Option TmInfo` argument is the result
of the `getLocalTime` call (`none` = failure). -/
def getCurrentHour (localTime : Option TmInfo) : Nat :=
  match localTime with
  | none => 0
  | some timeinfo => timeinfo.tm_hour

/-- `TimeManager::getCurrentMinute`: returns 0 when `getLocalTime` fails
(time_manager.cpp lines 58-64). -/
def getCurrentMinute (localTime : Option TmInfo) : Nat :=
  match localTime with
  | none => 0
  | some timeinfo => timeinfo.tm_min

/-- `TimeManager::checkSyncStatus` (time_manager.cpp lines 132-140):
time is valid if `getLocalTime` succeeds and the year (tm_year + 1900)
is at least 2024. -/
def checkSyncStatus (localTime : Option TmInfo) : Bool :=
  match localTime with
  | none => false
  | some timeinfo => decide (timeinfo.tm_year + 1900 ≥ 2024)

/-! ## TimeManager state machine (time_manager.cpp) -/

/-- Mutable state of `TimeManager`. -/
structure TimeManagerData where
  synced : Bool
  lastSyncAttempt : Nat
  lastSuccessfulSync : Nat
deriving Repr, DecidableEq

/-- Environment of one TimeManager operation: WiFi status, the result the
`getLocalTime` call would produce, and the current `millis()` reading. -/
structure TimeEnv where
  wifiConnected : Bool
  localTime : Option TmInfo
  now : Nat
deriving Repr, DecidableEq

/-- `SYNC_RETRY_MS` (time_manager.h): retry interval while unsynced. -/
def SYNC_RETRY_MS : Nat := 60000

/-- `SYNC_INTERVAL_MS` (time_manager.h): periodic resync interval. -/
def SYNC_INTERVAL_MS : Nat := 3600000

/-- The elapsed-time comparison `now - lastSyncAttempt >= SYNC_RETRY_MS`
(time_manager.cpp line 89). -/
def syncRetryCheck (now lastSyncAttempt : Nat) : Bool :=
  decide (u32sub now lastSyncAttempt ≥ SYNC_RETRY_MS)

/-- The elapsed-time comparison `now - lastSuccessfulSync >= SYNC_INTERVAL_MS`
(time_manager.cpp line 94). -/
def syncIntervalCheck (now lastSuccessfulSync : Nat) : Bool :=
  decide (u32sub now lastSuccessfulSync ≥ SYNC_INTERVAL_MS)

/-- `TimeManager::attemptSync` (time_manager.cpp lines 105-130). -/
def attemptSync (e : TimeEnv) (d : TimeManagerData) : TimeManagerData :=
  if e.wifiConnected = false then d
  else
    let d1 := { d with lastSyncAttempt := e.now }
    if checkSyncStatus e.localTime = true then
      { d1 with synced := true, lastSuccessfulSync := e.now }
    else
      d1

/-- `TimeManager::update` (time_manager.cpp lines 83-98). -/
def timeUpdate (e : TimeEnv) (d : TimeManagerData) : TimeManagerData :=
  if d.synced = false then
    if syncRetryCheck e.now d.lastSyncAttempt = true then attemptSync e d else d
  else
    if syncIntervalCheck e.now d.lastSuccessfulSync = true then attemptSync e d else d

/-- `TimeManager::forceSync` (time_manager.cpp lines 100-103). -/
def forceSync (e : TimeEnv) (d : TimeManagerData) : TimeManagerData :=
  attemptSync e d

/-- `TimeManager::setTimeFromServer` (time_manager.cpp lines 66-81):
sets the system clock, marks `synced = true` and records the sync time.
The timestamp itself goes to `settimeofday` and is not part of
`TimeManagerData`. -/
def setTimeFromServer (unixTimestamp : Nat) (e : TimeEnv)
    (d : TimeManagerData) : TimeManagerData :=
  let _ := unixTimestamp
  { d with synced := true, lastSuccessfulSync := e.now }

/-- One clock operation together with its environment. -/
inductive TimeOp where
  | updateOp : TimeEnv → TimeOp
  | forceSyncOp : TimeEnv → TimeOp
  | attemptSyncOp : TimeEnv → TimeOp
  | setTimeFromServerOp : Nat → TimeEnv → TimeOp
deriving Repr, DecidableEq

/-- Run a single clock operation. -/
def runTimeOp (d : TimeManagerData) : TimeOp → TimeManagerData
  | TimeOp.updateOp e => timeUpdate e d
  | TimeOp.forceSyncOp e => forceSync e d
  | TimeOp.attemptSyncOp e => attemptSync e d
  | TimeOp.setTimeFromServerOp ts e => setTimeFromServer ts e d

/-- Run a sequence of clock operations. -/
def runTimeOps (d : TimeManagerData) (ops : List TimeOp) : TimeManagerData :=
  ops.foldl runTimeOp d

/-! ## Configuration data model (config_manager.h / brightness_scheduler usage)

The struct definitions follow the source headers; `BrightnessScheduleConfig`
and the `schedule` member of `DisplayConfig` are declared in a header revision
not present in the snapshot, so their fields are taken from every use site
(`brightness_scheduler.cpp`, `web_server.cpp`) and from the spec's data model,
which agree. `periodCount` is represented by the length of the period list. -/

/-- One brightness schedule period. -/
structure SchedulePeriod where
  name : String
  startHour : Nat
  startMinute : Nat
  brightness : Nat
deriving Repr, DecidableEq

/-- The brightness schedule configuration (`display.schedule`). -/
structure BrightnessScheduleConfig where
  enabled : Bool
  periods : List SchedulePeriod
  touchBrightness : Nat
  displayTimeout : Nat
  timezone : String
deriving Repr, DecidableEq

/-- Button types (config_manager.h). -/
inductive ButtonType where
  | LIGHT
  | SWITCH
  | FAN
  | SCENE
deriving Repr, DecidableEq

/-- LCARS text field configuration (config_manager.h). -/
structure LCARSTextField where
  id : String
  value : String
  style : String
deriving Repr, DecidableEq

/-- LCARS-specific UI configuration (config_manager.h). -/
structure LCARSConfig where
  enabled : Bool
  colorScheme : String
  headerLeft : String
  headerRight : String
  footerLeft : String
  footerRight : String
  sidebarTop : String
  sidebarBottom : String
  customFields : List LCARSTextField
deriving Repr, DecidableEq

/-- Button configuration (config_manager.h). -/
structure ButtonConfig where
  id : Nat
  type : ButtonType
  name : String
  icon : String
  state : Bool
  subtitle : String
  speedSteps : Nat
  speedLevel : Nat
  sceneId : String
deriving Repr, DecidableEq

/-- Scene configuration (config_manager.h). -/
structure SceneConfig where
  id : Nat
  name : String
  icon : String
deriving Repr, DecidableEq

/-- Day/Night mode configuration (config_manager.h). -/
structure DayNightConfig where
  enabled : Bool
  dayTheme : String
  nightTheme : String
  dayStartHour : Nat
  nightStartHour : Nat
deriving Repr, DecidableEq

/-- Display configuration (config_manager.h plus the `schedule` member used
by brightness_scheduler.cpp and web_server.cpp). -/
structure DisplayConfig where
  brightness : Nat
  theme : String
  dayNight : DayNightConfig
  lcars : LCARSConfig
  schedule : BrightnessScheduleConfig
deriving Repr, DecidableEq

/-- Server configuration (config_manager.cpp uses host, port, reportingUrl). -/
structure ServerConfig where
  host : String
  port : Nat
  reportingUrl : String
deriving Repr, DecidableEq

/-- Device identification (config_manager.h). -/
structure DeviceInfo where
  id : String
  name : String
  location : String
deriving Repr, DecidableEq

/-- Complete device configuration (config_manager.h). -/
structure DeviceConfig where
  version : Nat
  device : DeviceInfo
  display : DisplayConfig
  buttons : List ButtonConfig
  scenes : List SceneConfig
  server : ServerConfig
deriving Repr, DecidableEq

/-! ## BrightnessScheduler (brightness_scheduler.cpp) -/

/-- Scheduler states (brightness_scheduler.h). -/
inductive SchedulerState where
  | SCHEDULED
  | AWAKE
deriving Repr, DecidableEq

/-- Mutable state of `BrightnessScheduler`. -/
structure BrightnessSchedulerData where
  state : SchedulerState
  currentScheduledBrightness : Nat
  lastAppliedBrightness : Nat
  wakeStartTime : Nat
  wakeGraceEndTime : Nat
  currentPeriodIndex : Int
deriving Repr, DecidableEq

/-- `WAKE_GRACE_PERIOD_MS`: the 500 ms grace window used at
brightness_scheduler.cpp lines 103-107. -/
def WAKE_GRACE_PERIOD_MS : Nat := 500

/-- One reading of the clock collaborators used by a scheduler tick:
`timeManager.isSynced()`, the `getLocalTime` result behind
`getCurrentHour`/`getCurrentMinute`, and `millis()`. -/
structure ClockReading where
  synced : Bool
  localTime : Option TmInfo
  millis : Nat
deriving Repr, DecidableEq

/-- `BrightnessScheduler::toMinutesSinceMidnight`
(brightness_scheduler.cpp lines 261-263). -/
def toMinutesSinceMidnight (hour minute : Nat) : Nat :=
  hour * 60 + minute

/-- Start-of-day minute offset of a period. -/
def periodStartMinutes (p : SchedulePeriod) : Nat :=
  toMinutesSinceMidnight p.startHour p.startMinute

/-- The scan loop of `BrightnessScheduler::findActivePeriod`
(brightness_scheduler.cpp lines 227-240): walk the period start times,
remembering the index of the latest start that is `<= currentMinutes`,
and break at the first start that is later. `i` is the index of the head
of `starts` in the full list and `activePeriod` the accumulator. -/
def findLoop (starts : List Nat) (currentMinutes i activePeriod : Nat) : Nat :=
  match starts with
  | [] => activePeriod
  | periodStart :: rest =>
    if periodStart ≤ currentMinutes then
      findLoop rest currentMinutes (i + 1) i
    else
      activePeriod

/-- `BrightnessScheduler::findActivePeriod`
(brightness_scheduler.cpp lines 214-243). -/
def findActivePeriod (schedule : BrightnessScheduleConfig)
    (hour minute : Nat) : Int :=
  if schedule.periods.length = 0 then -1
  else
    let currentMinutes := toMinutesSinceMidnight hour minute
    Int.ofNat (findLoop (schedule.periods.map periodStartMinutes)
      currentMinutes 0 (schedule.periods.length - 1))

/-- Default-constructed `SchedulePeriod` (unreachable index fallback). -/
def defaultPeriod : SchedulePeriod := ⟨"", 0, 0, 0⟩

/-- `BrightnessScheduler::getPeriodBrightness`
(brightness_scheduler.cpp lines 245-254); `manualBrightness` is
`configManager.getConfig().display.brightness`. -/
def getPeriodBrightness (schedule : BrightnessScheduleConfig)
    (manualBrightness : Nat) (periodIndex : Int) : Nat :=
  if periodIndex < 0 ∨ periodIndex ≥ (schedule.periods.length : Int) then
    manualBrightness
  else
    (schedule.periods.getD periodIndex.toNat defaultPeriod).brightness

/-- The wake-timeout elapsed-time comparison
`millis() - wakeStartTime >= schedule.displayTimeout * 1000UL`
(brightness_scheduler.cpp lines 50-51). -/
def wakeTimeoutCheck (now wakeStartTime displayTimeout : Nat) : Bool :=
  decide (u32sub now wakeStartTime ≥ (displayTimeout * 1000) % U32_MOD)

/-- The grace-window deadline computed at touch time:
`millis() + WAKE_GRACE_PERIOD_MS` (brightness_scheduler.cpp line 107). -/
def graceDeadline (now : Nat) : Nat :=
  u32add now WAKE_GRACE_PERIOD_MS

/-- The grace-window comparison `millis() < wakeGraceEndTime`
(brightness_scheduler.cpp line 132). -/
def graceActiveCheck (now wakeGraceEndTime : Nat) : Bool :=
  decide (now < wakeGraceEndTime)

/-- Result of `BrightnessScheduler::update`: the returned changed flag,
the brightness values passed to `uiManager.setBrightness` (via
`applyBrightness`), and the new scheduler state. -/
structure BrightnessUpdateResult where
  changed : Bool
  writes : List Nat
  data : BrightnessSchedulerData
deriving Repr, DecidableEq

/-- `BrightnessScheduler::update` (brightness_scheduler.cpp lines 22-87).
`display` is `configManager.getConfig().display`. -/
def brightnessUpdate (display : DisplayConfig) (clock : ClockReading)
    (d : BrightnessSchedulerData) : BrightnessUpdateResult :=
  let schedule := display.schedule
  if schedule.enabled = false then ⟨false, [], d⟩
  else if schedule.periods.length = 0 then ⟨false, [], d⟩
  else if clock.synced = false then
    if d.lastAppliedBrightness ≠ 50 then
      ⟨true, [50], { d with lastAppliedBrightness := 50 }⟩
    else ⟨false, [], d⟩
  else
    let d1 :=
      if d.state = SchedulerState.AWAKE ∧
          wakeTimeoutCheck clock.millis d.wakeStartTime schedule.displayTimeout = true
      then { d with state := SchedulerState.SCHEDULED, lastAppliedBrightness := 255 }
      else d
    let hour := getCurrentHour clock.localTime
    let minute := getCurrentMinute clock.localTime
    let periodIndex := findActivePeriod schedule hour minute
    let d2 :=
      if periodIndex ≠ d1.currentPeriodIndex then
        { d1 with
          currentPeriodIndex := periodIndex,
          currentScheduledBrightness :=
            getPeriodBrightness schedule display.brightness periodIndex }
      else d1
    let targetBrightness :=
      if d2.state = SchedulerState.AWAKE then schedule.touchBrightness
      else d2.currentScheduledBrightness
    if targetBrightness ≠ d2.lastAppliedBrightness then
      ⟨true, [targetBrightness],
        { d2 with lastAppliedBrightness := targetBrightness }⟩
    else ⟨false, [], d2⟩

/-- Result of `BrightnessScheduler::onTouchDetected`: the returned
consumed flag, brightness writes, and the new scheduler state. -/
structure TouchResult where
  consumed : Bool
  writes : List Nat
  data : BrightnessSchedulerData
deriving Repr, DecidableEq

/-- `BrightnessScheduler::onTouchDetected`
(brightness_scheduler.cpp lines 89-122). `actualBrightness` is
`uiManager.getBrightness()` and `now` the `millis()` reading. -/
def onTouchDetected (schedule : BrightnessScheduleConfig)
    (actualBrightness now : Nat)
    (d : BrightnessSchedulerData) : TouchResult :=
  if schedule.enabled = false then ⟨false, [], d⟩
  else if actualBrightness ≤ 5 then
    ⟨true, [schedule.touchBrightness],
      { d with
        state := SchedulerState.AWAKE,
        wakeStartTime := now,
        wakeGraceEndTime := graceDeadline now,
        lastAppliedBrightness := schedule.touchBrightness }⟩
  else if d.state = SchedulerState.AWAKE then
    ⟨false, [], { d with wakeStartTime := now }⟩
  else ⟨false, [], d⟩

/-- `BrightnessScheduler::shouldBlockButtons`
(brightness_scheduler.cpp lines 124-138). `uiBrightness` is
`uiManager.getBrightness()` and `now` the `millis()` reading. -/
def shouldBlockButtons (schedule : BrightnessScheduleConfig)
    (uiBrightness now : Nat) (d : BrightnessSchedulerData) : Bool :=
  if schedule.enabled = false then false
  else if graceActiveCheck now d.wakeGraceEndTime = true then true
  else decide (uiBrightness ≤ 5)

/-! ## ThemeScheduler (theme_scheduler.cpp) -/

/-- Mutable state of `ThemeScheduler`. -/
structure ThemeSchedulerData where
  currentAppliedTheme : String
  wasNightTime : Bool
  initialized : Bool
deriving Repr, DecidableEq

/-- `ThemeScheduler::isDayTime` (theme_scheduler.cpp lines 101-120). -/
def isDayTime (config : DayNightConfig) (hour : Nat) : Bool :=
  if config.dayStartHour < config.nightStartHour then
    decide (hour ≥ config.dayStartHour ∧ hour < config.nightStartHour)
  else if config.dayStartHour > config.nightStartHour then
    decide (hour ≥ config.dayStartHour ∨ hour < config.nightStartHour)
  else
    true

/-- `ThemeScheduler::applyTheme` (theme_scheduler.cpp lines 122-133).
`setThemeOk` is the return value of `themeEngine.setTheme`; the applied
theme name is recorded and a rebuild requested only on success. Returns
(rebuild requested, new state). -/
def applyTheme (setThemeOk : Bool) (themeName : String)
    (d : ThemeSchedulerData) : Bool × ThemeSchedulerData :=
  if setThemeOk = true then
    (true, { d with currentAppliedTheme := themeName })
  else
    (false, d)

/-- Result of `ThemeScheduler::update`: the returned changed flag, whether
`uiManager.requestRebuild()` was called, and the new scheduler state. -/
structure ThemeUpdateResult where
  changed : Bool
  rebuildRequested : Bool
  data : ThemeSchedulerData
deriving Repr, DecidableEq

/-- `ThemeScheduler::update` (theme_scheduler.cpp lines 20-61). -/
def themeUpdate (config : DayNightConfig) (clock : ClockReading)
    (setThemeOk : Bool) (d : ThemeSchedulerData) : ThemeUpdateResult :=
  if config.enabled = false then ⟨false, false, d⟩
  else if clock.synced = false then ⟨false, false, d⟩
  else
    let hour := getCurrentHour clock.localTime
    let isDay := isDayTime config hour
    let isNight := !isDay
    if d.initialized = true ∧ isNight = d.wasNightTime then ⟨false, false, d⟩
    else
      let targetTheme := if isDay = true then config.dayTheme else config.nightTheme
      if targetTheme = d.currentAppliedTheme then
        ⟨false, false, { d with wasNightTime := isNight, initialized := true }⟩
      else
        let applied := applyTheme setThemeOk targetTheme d
        ⟨true, applied.1,
          { applied.2 with wasNightTime := isNight, initialized := true }⟩

/-! ## ConfigManager JSON parsing (config_manager.cpp)

`deserializeJson` either fails (syntactically invalid / truncated / oversized
document) or yields a document tree; member access on the tree yields null
for absent keys and ArduinoJson's `|` operator substitutes the default.
The document tree is modelled by record types whose `Option` fields are the
values the corresponding `doc[key]` lookups produce (`none` = absent), and
a parse failure by `none` at the `Option ConfigDoc` level. -/

/-- JSON view of one entry of the `buttons` array. -/
structure ButtonDoc where
  id : Option Nat
  type : Option String
  name : Option String
  icon : Option String
  state : Option Bool
  subtitle : Option String
  speedSteps : Option Nat
  speedLevel : Option Nat
  sceneId : Option String
deriving Repr, DecidableEq

/-- JSON view of one entry of the `scenes` array. -/
structure SceneDoc where
  id : Option Nat
  name : Option String
  icon : Option String
deriving Repr, DecidableEq

/-- JSON view of one entry of `lcars.customFields`. -/
structure FieldDoc where
  id : Option String
  value : Option String
  style : Option String
deriving Repr, DecidableEq

/-- JSON view of the `display.lcars` object. -/
structure LcarsDoc where
  enabled : Option Bool
  colorScheme : Option String
  headerLeft : Option String
  headerRight : Option String
  footerLeft : Option String
  footerRight : Option String
  sidebarTop : Option String
  sidebarBottom : Option String
  customFields : List FieldDoc
deriving Repr, DecidableEq

/-- JSON view of the `display.dayNightMode` object. -/
structure DayNightDoc where
  enabled : Option Bool
  dayTheme : Option String
  nightTheme : Option String
  dayStartHour : Option Nat
  nightStartHour : Option Nat
deriving Repr, DecidableEq

/-- JSON view of the `device` object. -/
structure DeviceDoc where
  id : Option String
  name : Option String
  location : Option String
deriving Repr, DecidableEq

/-- JSON view of the `display` object. -/
structure DisplayDoc where
  brightness : Option Nat
  theme : Option String
  dayNightMode : Option DayNightDoc
  lcars : Option LcarsDoc
deriving Repr, DecidableEq

/-- JSON view of the `server` object. -/
structure ServerDoc where
  host : Option String
  port : Option Nat
  reportingUrl : Option String
deriving Repr, DecidableEq

/-- JSON view of a whole configuration document. Absent arrays iterate as
empty, matching ArduinoJson. -/
structure ConfigDoc where
  version : Option Nat
  device : Option DeviceDoc
  display : Option DisplayDoc
  buttons : List ButtonDoc
  scenes : List SceneDoc
  server : Option ServerDoc
deriving Repr, DecidableEq

/-- `MAX_BUTTONS` (config_manager.h). -/
def MAX_BUTTONS : Nat := 6

/-- `MAX_SCENES` (config_manager.h). -/
def MAX_SCENES : Nat := 2

/-- In-memory state of `ConfigManager` relevant to parsing. -/
structure ConfigManagerState where
  config : DeviceConfig
  configured : Bool
deriving Repr, DecidableEq

/-- Button type string decoding (config_manager.cpp lines 136-145). -/
def parseButtonType (typeStr : String) : ButtonType :=
  if typeStr = "switch" then ButtonType.SWITCH
  else if typeStr = "fan" then ButtonType.FAN
  else if typeStr = "scene" then ButtonType.SCENE
  else ButtonType.LIGHT

/-- One iteration body of the buttons loop (config_manager.cpp lines
131-154); `sizeSoFar` is `config.buttons.size()` at push time. -/
def parseButton (btn : ButtonDoc) (sizeSoFar : Nat) : ButtonConfig :=
  { id := btn.id.getD (sizeSoFar + 1)
    type := parseButtonType (btn.type.getD "light")
    name := btn.name.getD "Button"
    icon := btn.icon.getD "charge"
    state := btn.state.getD false
    subtitle := btn.subtitle.getD ""
    speedSteps := btn.speedSteps.getD 0
    speedLevel := btn.speedLevel.getD 0
    sceneId := btn.sceneId.getD "" }

/-- The buttons loop with its `MAX_BUTTONS` break
(config_manager.cpp lines 129-154). -/
def parseButtonsLoop : List ButtonDoc → List ButtonConfig → List ButtonConfig
  | [], acc => acc
  | btn :: rest, acc =>
    if acc.length ≥ MAX_BUTTONS then acc
    else parseButtonsLoop rest (acc ++ [parseButton btn acc.length])

/-- One iteration body of the scenes loop (config_manager.cpp lines 159-166). -/
def parseScene (scn : SceneDoc) (sizeSoFar : Nat) : SceneConfig :=
  { id := scn.id.getD (sizeSoFar + 1)
    name := scn.name.getD "Scene"
    icon := scn.icon.getD "power" }

/-- The scenes loop with its `MAX_SCENES` break
(config_manager.cpp lines 157-167). -/
def parseScenesLoop : List SceneDoc → List SceneConfig → List SceneConfig
  | [], acc => acc
  | scn :: rest, acc =>
    if acc.length ≥ MAX_SCENES then acc
    else parseScenesLoop rest (acc ++ [parseScene scn acc.length])

/-- The custom fields loop (config_manager.cpp lines 118-126). -/
def parseCustomFields (fields : List FieldDoc) : List LCARSTextField :=
  fields.map fun field =>
    { id := field.id.getD ""
      value := field.value.getD ""
      style := field.style.getD "label" }

/-- An all-absent JSON object view, as produced by member access on a
missing key in ArduinoJson. -/
def emptyDeviceDoc : DeviceDoc := ⟨none, none, none⟩

/-- An all-absent `display` object view. -/
def emptyDisplayDoc : DisplayDoc := ⟨none, none, none, none⟩

/-- An all-absent `dayNightMode` object view. -/
def emptyDayNightDoc : DayNightDoc := ⟨none, none, none, none, none⟩

/-- An all-absent `lcars` object view. -/
def emptyLcarsDoc : LcarsDoc :=
  ⟨none, none, none, none, none, none, none, none, []⟩

/-- An all-absent `server` object view. -/
def emptyServerDoc : ServerDoc := ⟨none, none, none⟩

/-- `ConfigManager::parseConfigJson` (config_manager.cpp lines 75-183).
`doc` is the result of `deserializeJson` (`none` = DeserializationError,
the early-return path of lines 79-82 that precedes every assignment to
`config`); `genId` is the value `generateDeviceId()` would return. Fields
of `config` never assigned by the function (the schedule) keep their old
values, since the C++ mutates the long-lived `config` object field by
field. Returns the bool result and the new manager state. -/
def parseConfigJson (genId : String) (doc : Option ConfigDoc)
    (s : ConfigManagerState) : Bool × ConfigManagerState :=
  match doc with
  | none => (false, s)
  | some doc =>
    let device := doc.device.getD emptyDeviceDoc
    let display := doc.display.getD emptyDisplayDoc
    let dayNight := display.dayNightMode.getD emptyDayNightDoc
    let lcars := display.lcars.getD emptyLcarsDoc
    let server := doc.server.getD emptyServerDoc
    let host := server.host.getD "10.0.1.250"
    let port := server.port.getD 3000
    let reportingUrl0 := server.reportingUrl.getD ""
    let reportingUrl :=
      if reportingUrl0.length = 0 then
        "http://" ++ host ++ ":" ++ toString port
      else reportingUrl0
    (true,
      { config :=
        { version := doc.version.getD 1
          device :=
          { id := device.id.getD genId
            name := device.name.getD "ESP32 Display"
            location := device.location.getD "Unknown" }
          display :=
          { brightness := display.brightness.getD 80
            theme := display.theme.getD "dark_clean"
            dayNight :=
            { enabled := dayNight.enabled.getD false
              dayTheme := dayNight.dayTheme.getD "light_mode"
              nightTheme := dayNight.nightTheme.getD "dark_clean"
              dayStartHour := dayNight.dayStartHour.getD 7
              nightStartHour := dayNight.nightStartHour.getD 20 }
            lcars :=
            { enabled := lcars.enabled.getD false
              colorScheme := lcars.colorScheme.getD "federation"
              headerLeft := lcars.headerLeft.getD "STARDATE"
              headerRight := lcars.headerRight.getD "ONLINE"
              footerLeft := lcars.footerLeft.getD ""
              footerRight := lcars.footerRight.getD ""
              sidebarTop := lcars.sidebarTop.getD ""
              sidebarBottom := lcars.sidebarBottom.getD ""
              customFields := parseCustomFields lcars.customFields }
            schedule := s.config.display.schedule }
          buttons := parseButtonsLoop doc.buttons []
          scenes := parseScenesLoop doc.scenes []
          server := ⟨host, port, reportingUrl⟩ }
        configured := true })

/-! ## DeviceController HTTP dispatch queue (device_controller.cpp) -/

/-- `HTTP_QUEUE_SIZE` (device_controller.h line 71). -/
def HTTP_QUEUE_SIZE : Nat := 3

/-- Async HTTP request structure (device_controller.h lines 11-14); the
`strncpy` copies truncate to the buffer sizes. -/
structure HttpRequest where
  url : String
  payload : String
deriving Repr, DecidableEq

/-- `DeviceController::httpPostAsync` (device_controller.cpp lines 146-164):
build the request (with `strncpy` truncation to 255/511 characters) and
`xQueueSend` with zero timeout — append to the back of the FIFO if there is
space, otherwise drop the new request and leave the queue unchanged. -/
def httpPostAsync (queue : List HttpRequest) (url payload : String) :
    List HttpRequest :=
  let request : HttpRequest := ⟨url.take 255, payload.take 511⟩
  if queue.length < HTTP_QUEUE_SIZE then queue ++ [request] else queue

/-! ## Spec-side definition for the period-resolution claim -/

/-- Stated from the spec's words for comparison with `findActivePeriod`:
"the active period is the last period whose start time is ≤ current time;
if the current time precedes every period's start, the active period wraps
to the last period in the list". The last qualifying index is the last
entry of the indices of the period list whose start minute is ≤ the query
minute-of-day. -/
def specActivePeriodIndex (schedule : BrightnessScheduleConfig)
    (hour minute : Nat) : Nat :=
  let currentMinutes := toMinutesSinceMidnight hour minute
  let starts := schedule.periods.map periodStartMinutes
  match ((List.range starts.length).filter
      fun i => decide (starts.getD i 0 ≤ currentMinutes)).getLast? with
  | some j => j
  | none => schedule.periods.length - 1

/-! ## Concrete example values used by witnesses -/

/-- Initial `BrightnessScheduler` state from the constructor
(brightness_scheduler.cpp lines 8-15). -/
def initialSchedulerData : BrightnessSchedulerData :=
  ⟨SchedulerState.SCHEDULED, 80, 255, 0, 0, -1⟩

/-- Initial `TimeManager` state from the constructor
(time_manager.cpp lines 14-19). -/
def initialTimeManagerData : TimeManagerData := ⟨false, 0, 0⟩

/-- Example schedule: the spec's two-period example
`[{06:00,80%}, {22:00,20%}]`. -/
def exSchedule : BrightnessScheduleConfig :=
  ⟨true, [⟨"morning", 6, 0, 80⟩, ⟨"night", 22, 0, 20⟩], 80, 30,
    "MST7MDT,M3.2.0,M11.1.0"⟩

/-- Example LCARS configuration (the defaults of createDefaultConfig). -/
def exLcars : LCARSConfig :=
  ⟨false, "federation", "STARDATE", "ONLINE", "", "", "", "", []⟩

/-- Example display configuration. -/
def exDisplay : DisplayConfig :=
  ⟨80, "dark_clean", ⟨true, "light_mode", "dark_clean", 7, 20⟩, exLcars,
    exSchedule⟩

/-- Example device configuration. -/
def exDeviceConfig : DeviceConfig :=
  ⟨1, ⟨"esp32-abc123", "ESP32 Display", "Unknown"⟩, exDisplay, [], [],
    ⟨"10.0.1.250", 3000, "http://10.0.1.250:3000"⟩⟩

/-- Example config-manager state holding a previously valid configuration. -/
def exConfigState : ConfigManagerState := ⟨exDeviceConfig, true⟩

/-- Example full dispatch queue holding `HTTP_QUEUE_SIZE` commands. -/
def exQueue : List HttpRequest :=
  [⟨"http://s/a", "p1"⟩, ⟨"http://s/b", "p2"⟩, ⟨"http://s/c", "p3"⟩]

/-- Example theme scheduler state. -/
def exThemeData : ThemeSchedulerData := ⟨"light_mode", false, true⟩

/-! ## Theorems -/

/-- Claim C2: configuration replacement is atomic. For every input document
given to `parseConfigJson`, the previously valid in-memory configuration is
overwritten only if the document parses successfully; an invalid document
(a `deserializeJson` failure, which is the only failing path) never
overwrites any part of the previously valid configuration, and
`parseConfigJson` returns false exactly in that case. -/
theorem claim_C2 (genId : String) (doc : Option ConfigDoc)
    (s : ConfigManagerState) :
    ((parseConfigJson genId doc s).1 = false ↔ doc = none) ∧
    (doc = none → parseConfigJson genId doc s = (false, s)) := by
  cases doc <;> simp [parseConfigJson]

/-- Witness for C2 at a concrete previously valid configuration and a failed
parse: the state is returned unchanged. -/
theorem claim_C2_witness :
    parseConfigJson "esp32-abc123" none exConfigState = (false, exConfigState) :=
  (claim_C2 "esp32-abc123" none exConfigState).2 rfl

/-- Claim C8: enqueuing into the capacity-3 dispatch queue when it already
holds 3 commands drops the new command and leaves the 3 queued commands
intact, in their original FIFO order: the queue value is unchanged. -/
theorem claim_C8 (queue : List HttpRequest) (url payload : String)
    (h : queue.length = HTTP_QUEUE_SIZE) :
    httpPostAsync queue url payload = queue := by
  unfold httpPostAsync
  rw [h]
  simp

/-- Witness for C8: a concrete full queue is unchanged by a 4th enqueue. -/
theorem claim_C8_witness :
    httpPostAsync exQueue "http://s/d" "p4" = exQueue :=
  claim_C8 exQueue "http://s/d" "p4" (by decide)

/-- Helper: `attemptSync` never clears the synced flag. -/
theorem attemptSync_preserves_synced (e : TimeEnv) (d : TimeManagerData)
    (h : d.synced = true) : (attemptSync e d).synced = true := by
  unfold attemptSync
  split_ifs <;> simp [h]

/-- Helper: every single clock operation preserves the synced flag. -/
theorem runTimeOp_preserves_synced (d : TimeManagerData) (op : TimeOp)
    (h : d.synced = true) : (runTimeOp d op).synced = true := by
  cases op with
  | updateOp e =>
    show (timeUpdate e d).synced = true
    unfold timeUpdate
    rw [if_neg (by simp [h])]
    split_ifs
    · exact attemptSync_preserves_synced e d h
    · exact h
  | forceSyncOp e =>
    exact attemptSync_preserves_synced e d h
  | attemptSyncOp e =>
    exact attemptSync_preserves_synced e d h
  | setTimeFromServerOp ts e =>
    simp [runTimeOp, setTimeFromServer]

/-- Claim C4: the clock's synced flag is monotone. For every sequence of
clock operations (update, forceSync, attemptSync, setTimeFromServer), once
`synced` is true no operation ever sets it back to false; in particular a
failed periodic resync attempt leaves `synced` true. -/
theorem claim_C4 (ops : List TimeOp) (d : TimeManagerData)
    (h : d.synced = true) : (runTimeOps d ops).synced = true := by
  induction ops generalizing d with
  | nil => exact h
  | cons op rest ih =>
    exact ih (runTimeOp d op) (runTimeOp_preserves_synced d op h)

/-- Witness for C4: a synced clock stays synced across a failed periodic
resync (WiFi up, `getLocalTime` failing, resync interval elapsed) followed
by a failed forced sync. -/
theorem claim_C4_witness :
    (runTimeOps ⟨true, 0, 0⟩
      [TimeOp.updateOp ⟨true, none, 3600000⟩,
       TimeOp.forceSyncOp ⟨true, none, 3700000⟩]).synced = true :=
  claim_C4 _ _ rfl

/-- Claim C10: whenever the underlying time source fails to produce a local
time, `getCurrentHour` and `getCurrentMinute` both return 0 rather than
signalling an error, so both scheduler ticks compute their decisions exactly
as if the current time were midnight (00:00). -/
theorem claim_C10 (clock : ClockReading) (h : clock.localTime = none) :
    getCurrentHour clock.localTime = 0 ∧
    getCurrentMinute clock.localTime = 0 ∧
    (∀ display d, brightnessUpdate display clock d =
      brightnessUpdate display { clock with localTime := some ⟨0, 0, 0, 125⟩ } d) ∧
    (∀ config setThemeOk td, themeUpdate config clock setThemeOk td =
      themeUpdate config { clock with localTime := some ⟨0, 0, 0, 125⟩ }
        setThemeOk td) := by
  obtain ⟨sy, lt, ms⟩ := clock
  cases h
  exact ⟨rfl, rfl, fun display d => rfl, fun config ok td => rfl⟩

/-- Witness for C10: at a concrete synced clock whose `getLocalTime` fails,
the brightness tick equals the tick at literal midnight. -/
theorem claim_C10_witness :
    brightnessUpdate exDisplay ⟨true, none, 12345⟩ initialSchedulerData =
      brightnessUpdate exDisplay ⟨true, some ⟨0, 0, 0, 125⟩, 12345⟩
        initialSchedulerData :=
  (claim_C10 ⟨true, none, 12345⟩ rfl).2.2.1 exDisplay initialSchedulerData

/-- Helper: uint32 subtraction of two in-range operands is invariant under
shifting both operands by the same (wrapping) tick offset. -/
theorem u32sub_shift (a b d : Nat) (ha : a < U32_MOD) (hb : b < U32_MOD) :
    u32sub ((a + d) % U32_MOD) ((b + d) % U32_MOD) = u32sub a b := by
  unfold u32sub U32_MOD at *
  omega

/-- Counterexample to claim C3 as stated: the post-wake grace-window check
(`millis() < wakeGraceEndTime`, brightness_scheduler.cpp line 132, with
`wakeGraceEndTime = millis() + WAKE_GRACE_PERIOD_MS` from line 107) does not
compute the unsigned difference `now - start`, and its outcome changes when
the tick counter wraps: a touch at tick 0 queried at tick 100 blocks, but
the same scenario shifted by 4294967096 ticks (so the deadline addition
wraps) does not block. -/
theorem claim_C3_counterexample :
    graceActiveCheck 100 (graceDeadline 0) = true ∧
    graceActiveCheck ((100 + 4294967096) % U32_MOD)
      (graceDeadline ((0 + 4294967096) % U32_MOD)) = false := by
  constructor <;> rfl

/-- Claim C3 (amended): the wake-timeout comparison in the brightness tick
and the sync retry/resync comparisons in the clock update compute the
unsigned difference `now - start` and compare it to the interval, so their
outcomes are unchanged when the tick counter wraps (shifting both the
current tick and the stored start tick by any offset modulo 2^32 leaves
each outcome unchanged); the grace-window check in `shouldBlockButtons`
instead compares `millis()` with the absolute deadline
`wakeGraceEndTime = touchTime + WAKE_GRACE_PERIOD_MS` and is not
wraparound-safe. -/
theorem claim_C3 (a b d displayTimeout : Nat)
    (ha : a < U32_MOD) (hb : b < U32_MOD) :
    wakeTimeoutCheck ((a + d) % U32_MOD) ((b + d) % U32_MOD) displayTimeout =
      wakeTimeoutCheck a b displayTimeout ∧
    syncRetryCheck ((a + d) % U32_MOD) ((b + d) % U32_MOD) =
      syncRetryCheck a b ∧
    syncIntervalCheck ((a + d) % U32_MOD) ((b + d) % U32_MOD) =
      syncIntervalCheck a b := by
  unfold wakeTimeoutCheck syncRetryCheck syncIntervalCheck
  rw [u32sub_shift a b d ha hb]
  exact ⟨rfl, rfl, rfl⟩

/-- Witness for the amended C3 at concrete ticks: a wake started at tick 1000
checked at tick 40000 with a 30 s timeout, shifted by 4294967000 ticks
(crossing the wrap), yields the same outcomes. -/
theorem claim_C3_witness :
    wakeTimeoutCheck ((40000 + 4294967000) % U32_MOD)
        ((1000 + 4294967000) % U32_MOD) 30 =
      wakeTimeoutCheck 40000 1000 30 ∧
    syncRetryCheck ((40000 + 4294967000) % U32_MOD)
        ((1000 + 4294967000) % U32_MOD) =
      syncRetryCheck 40000 1000 ∧
    syncIntervalCheck ((40000 + 4294967000) % U32_MOD)
        ((1000 + 4294967000) % U32_MOD) =
      syncIntervalCheck 40000 1000 :=
  claim_C3 40000 1000 4294967000 30 (by decide) (by decide)

/-- Helper: the scan loop stops exactly at the `takeWhile` boundary of the
start-time list: it returns the accumulator when no leading start is ≤ the
query, and otherwise the global index of the last leading start that is. -/
theorem findLoop_eq (starts : List Nat) (cur i acc : Nat) :
    findLoop starts cur i acc =
      if (starts.takeWhile fun s => decide (s ≤ cur)).length = 0 then acc
      else i + (starts.takeWhile fun s => decide (s ≤ cur)).length - 1 := by
  induction starts generalizing i acc with
  | nil => simp [findLoop]
  | cons s rest ih =>
    by_cases h : s ≤ cur
    · have hcons : (s :: rest).takeWhile (fun s => decide (s ≤ cur)) =
          s :: rest.takeWhile (fun s => decide (s ≤ cur)) := by
        simp [List.takeWhile_cons, h]
      rw [show findLoop (s :: rest) cur i acc = findLoop rest cur (i + 1) i from
        by simp [findLoop, h]]
      rw [ih, hcons]
      simp only [List.length_cons]
      rcases Nat.eq_zero_or_pos
          (rest.takeWhile (fun s => decide (s ≤ cur))).length with h0 | h0
      · rw [h0]
        simp
      · rw [if_neg (by omega), if_neg (by omega)]
        omega
    · have hcons : (s :: rest).takeWhile (fun s => decide (s ≤ cur)) = [] := by
        simp [List.takeWhile_cons, h]
      rw [show findLoop (s :: rest) cur i acc = acc from by simp [findLoop, h]]
      rw [hcons]
      simp

/-- Helper: every position inside the `takeWhile (· ≤ cur)` prefix carries a
value ≤ cur. -/
theorem takeWhile_le_getD (cur : Nat) (l : List Nat) (i : Nat)
    (hi : i < (l.takeWhile fun s => decide (s ≤ cur)).length) :
    l.getD i 0 ≤ cur := by
  induction l generalizing i with
  | nil => simp at hi
  | cons a rest ih =>
    by_cases h : a ≤ cur
    · cases i with
      | zero => simpa using h
      | succ j =>
        simp only [List.takeWhile_cons, decide_eq_true_eq] at hi
        rw [if_pos h, List.length_cons] at hi
        simpa using ih j (by omega)
    · simp [List.takeWhile_cons, h] at hi

/-- Helper: in a list sorted ascending, every position at or beyond the
`takeWhile (· ≤ cur)` prefix carries a value > cur. -/
theorem takeWhile_le_bound (cur : Nat) (l : List Nat)
    (hs : List.Pairwise (· ≤ ·) l) (i : Nat)
    (hti : (l.takeWhile fun s => decide (s ≤ cur)).length ≤ i)
    (hil : i < l.length) : ¬ l.getD i 0 ≤ cur := by
  induction l generalizing i with
  | nil => simp at hil
  | cons a rest ih =>
    obtain ⟨ha, hs'⟩ := List.pairwise_cons.mp hs
    by_cases h : a ≤ cur
    · simp only [List.takeWhile_cons, decide_eq_true_eq] at hti
      rw [if_pos h, List.length_cons] at hti
      cases i with
      | zero => omega
      | succ j =>
        simp only [List.getD_cons_succ]
        exact ih hs' j (by omega) (by simpa using hil)
    · cases i with
      | zero => simpa using h
      | succ j =>
        simp only [List.getD_cons_succ]
        have hmem : rest.getD j 0 ∈ rest := by
          rw [List.getD_eq_getElem _ _ (by simpa using hil)]
          exact List.getElem_mem _
        have := ha _ hmem
        omega

/-- Helper: a `takeWhile` prefix is no longer than the list. -/
theorem takeWhile_len_le (p : Nat → Bool) (l : List Nat) :
    (l.takeWhile p).length ≤ l.length := by
  induction l with
  | nil => simp
  | cons a rest ih =>
    rw [List.takeWhile_cons]
    cases hpa : p a
    · simp
    · simp
      omega

/-- Helper: for a sorted start list, the indices whose start is ≤ the query
are exactly the indices below the `takeWhile` boundary. -/
theorem filter_range_eq (cur : Nat) (l : List Nat)
    (hs : List.Pairwise (· ≤ ·) l) :
    (List.range l.length).filter (fun i => decide (l.getD i 0 ≤ cur)) =
      List.range (l.takeWhile fun s => decide (s ≤ cur)).length := by
  have ht : (l.takeWhile fun s => decide (s ≤ cur)).length ≤ l.length :=
    takeWhile_len_le _ l
  rw [show l.length =
      (l.takeWhile fun s => decide (s ≤ cur)).length +
        (l.length - (l.takeWhile fun s => decide (s ≤ cur)).length) from by omega,
    List.range_add, List.filter_append]
  rw [List.filter_eq_self.mpr, List.filter_eq_nil_iff.mpr, List.append_nil]
  · intro b hb
    simp only [List.mem_map, List.mem_range] at hb
    obtain ⟨j, hj, rfl⟩ := hb
    simpa using takeWhile_le_bound cur l hs _ (by omega) (by omega)
  · intro a ha
    simpa using takeWhile_le_getD cur l a (by simpa using ha)

/-- Claim C1: period resolution. For every schedule with at least one period,
sorted ascending by start-of-day minute offset, and every query time,
`findActivePeriod` returns the index of the last period whose start time is
≤ the query time in minutes since midnight, and the index of the last period
in the list when the query precedes every period's start (overnight
wraparound) — i.e. it agrees with the spec-side `specActivePeriodIndex`. -/
theorem claim_C1 (schedule : BrightnessScheduleConfig) (hour minute : Nat)
    (hne : schedule.periods ≠ [])
    (hs : List.Pairwise (· ≤ ·) (schedule.periods.map periodStartMinutes)) :
    findActivePeriod schedule hour minute =
      Int.ofNat (specActivePeriodIndex schedule hour minute) := by
  have hlen : schedule.periods.length ≠ 0 := by
    simpa [List.length_eq_zero] using hne
  simp only [findActivePeriod, specActivePeriodIndex]
  rw [if_neg hlen, findLoop_eq,
    filter_range_eq (toMinutesSinceMidnight hour minute)
      (schedule.periods.map periodStartMinutes) hs]
  set t := ((schedule.periods.map periodStartMinutes).takeWhile
    fun s => decide (s ≤ toMinutesSinceMidnight hour minute)).length with htdef
  rcases t with _ | k
  · simp
  · rw [List.range_succ, List.getLast?_concat]
    simp only [Nat.succ_ne_zero, if_false]
    congr 1
    omega

/-- Witness for C1: the spec's example schedule `[{06:00,80%}, {22:00,20%}]`
queried at 05:00 (before every start: wraps to the last period). -/
theorem claim_C1_witness :
    findActivePeriod exSchedule 5 0 =
      Int.ofNat (specActivePeriodIndex exSchedule 5 0) :=
  claim_C1 exSchedule 5 0 (by decide) (by decide)

/-- Claim C9: `findActivePeriod` returns -1 exactly when the schedule has no
periods, and otherwise an index in `[0, periodCount)`; consequently the
array access performed on its result is in bounds and the out-of-range
fallback of `getPeriodBrightness` (the manual display brightness) is
unreachable: the returned brightness is the indexed period's brightness,
whatever the manual brightness is. -/
theorem claim_C9 (schedule : BrightnessScheduleConfig)
    (hour minute manualBrightness : Nat) :
    (findActivePeriod schedule hour minute = -1 ↔
      schedule.periods.length = 0) ∧
    (schedule.periods.length ≠ 0 →
      0 ≤ findActivePeriod schedule hour minute ∧
      findActivePeriod schedule hour minute < (schedule.periods.length : Int) ∧
      getPeriodBrightness schedule manualBrightness
          (findActivePeriod schedule hour minute) =
        (schedule.periods.getD
          (findActivePeriod schedule hour minute).toNat
          defaultPeriod).brightness) := by
  by_cases hlen : schedule.periods.length = 0
  · constructor
    · simp [findActivePeriod, hlen]
    · intro h
      exact absurd hlen h
  · have hfa : findActivePeriod schedule hour minute =
        Int.ofNat (findLoop (schedule.periods.map periodStartMinutes)
          (toMinutesSinceMidnight hour minute) 0
          (schedule.periods.length - 1)) := by
      simp only [findActivePeriod]
      rw [if_neg hlen]
    have hbound : findLoop (schedule.periods.map periodStartMinutes)
        (toMinutesSinceMidnight hour minute) 0
        (schedule.periods.length - 1) < schedule.periods.length := by
      rw [findLoop_eq]
      have ht := takeWhile_len_le
        (fun s => decide (s ≤ toMinutesSinceMidnight hour minute))
        (schedule.periods.map periodStartMinutes)
      rw [List.length_map] at ht
      split_ifs <;> omega
    rw [hfa]
    constructor
    · constructor
      · intro h
        have h0 : (0 : Int) ≤ Int.ofNat (findLoop
            (schedule.periods.map periodStartMinutes)
            (toMinutesSinceMidnight hour minute) 0
            (schedule.periods.length - 1)) := Int.ofNat_nonneg _
        omega
      · intro h
        exact absurd h hlen
    · intro _
      refine ⟨Int.ofNat_nonneg _, Int.ofNat_lt.mpr hbound, ?_⟩
      rw [getPeriodBrightness, if_neg]
      push_neg
      exact ⟨Int.ofNat_nonneg _, Int.ofNat_lt.mpr hbound⟩

/-- Claim C7: the theme tick applies a theme and requests a UI rebuild only
when both conditions hold — the day/night boundary has been crossed since
the last evaluation (or it is the first evaluation), and the target theme
name differs from the currently applied theme name; a crossing into a state
whose theme equals the currently applied theme does not trigger a rebuild
and the tick returns false. -/
theorem claim_C7 (config : DayNightConfig) (clock : ClockReading)
    (setThemeOk : Bool) (d : ThemeSchedulerData) :
    ((themeUpdate config clock setThemeOk d).rebuildRequested = true →
      (d.initialized = false ∨
        (!isDayTime config (getCurrentHour clock.localTime)) ≠ d.wasNightTime) ∧
      (if isDayTime config (getCurrentHour clock.localTime) = true then
          config.dayTheme else config.nightTheme) ≠ d.currentAppliedTheme) ∧
    ((if isDayTime config (getCurrentHour clock.localTime) = true then
        config.dayTheme else config.nightTheme) = d.currentAppliedTheme →
      (themeUpdate config clock setThemeOk d).changed = false ∧
      (themeUpdate config clock setThemeOk d).rebuildRequested = false) := by
  constructor
  · intro hreb
    unfold themeUpdate applyTheme at hreb
    by_cases h1 : config.enabled = false
    · rw [if_pos h1] at hreb
      simp at hreb
    rw [if_neg h1] at hreb
    by_cases h2 : clock.synced = false
    · rw [if_pos h2] at hreb
      simp at hreb
    rw [if_neg h2] at hreb
    by_cases h3 : d.initialized = true ∧
        (!isDayTime config (getCurrentHour clock.localTime)) = d.wasNightTime
    · rw [if_pos h3] at hreb
      simp at hreb
    rw [if_neg h3] at hreb
    by_cases h4 : (if isDayTime config (getCurrentHour clock.localTime) = true
        then config.dayTheme else config.nightTheme) = d.currentAppliedTheme
    · rw [if_pos h4] at hreb
      simp at hreb
    · refine ⟨?_, h4⟩
      by_cases hi : d.initialized = true
      · right
        intro hcontra
        exact h3 ⟨hi, hcontra⟩
      · left
        simpa using hi
  · intro heq
    unfold themeUpdate applyTheme
    by_cases h1 : config.enabled = false
    · rw [if_pos h1]
      exact ⟨rfl, rfl⟩
    rw [if_neg h1]
    by_cases h2 : clock.synced = false
    · rw [if_pos h2]
      exact ⟨rfl, rfl⟩
    rw [if_neg h2]
    by_cases h3 : d.initialized = true ∧
        (!isDayTime config (getCurrentHour clock.localTime)) = d.wasNightTime
    · rw [if_pos h3]
      exact ⟨rfl, rfl⟩
    · rw [if_neg h3, if_pos heq]
      exact ⟨rfl, rfl⟩

/-- Witness for C7: a boundary crossing (night→day at hour 10) into a state
whose day theme is already applied produces no change and no rebuild. -/
theorem claim_C7_witness :
    (themeUpdate ⟨true, "light_mode", "dark_clean", 7, 20⟩
      ⟨true, some ⟨10, 0, 0, 125⟩, 0⟩ true
      ⟨"light_mode", true, true⟩).changed = false ∧
    (themeUpdate ⟨true, "light_mode", "dark_clean", 7, 20⟩
      ⟨true, some ⟨10, 0, 0, 125⟩, 0⟩ true
      ⟨"light_mode", true, true⟩).rebuildRequested = false :=
  (claim_C7 ⟨true, "light_mode", "dark_clean", 7, 20⟩
    ⟨true, some ⟨10, 0, 0, 125⟩, 0⟩ true ⟨"light_mode", true, true⟩).2 (by decide)

/-- Counterexample to claim C5 as stated: the 500 ms grace window is tracked
by the absolute deadline `millis() + WAKE_GRACE_PERIOD_MS` truncated to
uint32, so a touch-wake 100 ticks before the tick counter wraps is consumed
and enters `AWAKE`, yet 1 ms later (still well inside the claimed 500 ms
window) `shouldBlockButtons` already returns false. -/
theorem claim_C5_counterexample :
    (onTouchDetected exSchedule 3 4294967196 initialSchedulerData).consumed =
      true ∧
    (onTouchDetected exSchedule 3 4294967196 initialSchedulerData).data.state =
      SchedulerState.AWAKE ∧
    u32sub 4294967197 4294967196 < WAKE_GRACE_PERIOD_MS ∧
    shouldBlockButtons exSchedule 80 4294967197
      (onTouchDetected exSchedule 3 4294967196 initialSchedulerData).data =
      false := by
  exact ⟨rfl, rfl, by decide, rfl⟩

/-- Claim C5 (amended): with the schedule enabled, the actual applied
brightness at or below 5 %, and the touch arriving at least
`WAKE_GRACE_PERIOD_MS` ticks before the tick counter wraps, `onTouchDetected`
returns consumed, sets the state to `AWAKE`, starts the wake timer at the
touch tick, applies the wake brightness immediately, and starts a 500 ms
grace window during which `shouldBlockButtons` returns true regardless of
brightness — and a second touch at wake brightness (above the dim threshold)
merely refreshes the wake timer and returns not consumed. -/
theorem claim_C5 (schedule : BrightnessScheduleConfig)
    (d : BrightnessSchedulerData) (actualBrightness now : Nat)
    (hen : schedule.enabled = true) (hdim : actualBrightness ≤ 5)
    (hwrap : now + WAKE_GRACE_PERIOD_MS < U32_MOD)
    (htouch : 5 < schedule.touchBrightness) :
    (onTouchDetected schedule actualBrightness now d).consumed = true ∧
    (onTouchDetected schedule actualBrightness now d).data.state =
      SchedulerState.AWAKE ∧
    (onTouchDetected schedule actualBrightness now d).data.wakeStartTime =
      now ∧
    (onTouchDetected schedule actualBrightness now d).data.wakeGraceEndTime =
      now + WAKE_GRACE_PERIOD_MS ∧
    (onTouchDetected schedule actualBrightness now d).writes =
      [schedule.touchBrightness] ∧
    (onTouchDetected schedule actualBrightness now d).data.lastAppliedBrightness =
      schedule.touchBrightness ∧
    (∀ now2 uiBrightness, now2 < now + WAKE_GRACE_PERIOD_MS →
      shouldBlockButtons schedule uiBrightness now2
        (onTouchDetected schedule actualBrightness now d).data = true) ∧
    (∀ now3, onTouchDetected schedule schedule.touchBrightness now3
        (onTouchDetected schedule actualBrightness now d).data =
      ⟨false, [],
        { (onTouchDetected schedule actualBrightness now d).data with
          wakeStartTime := now3 }⟩) := by
  have hwake : onTouchDetected schedule actualBrightness now d =
      ⟨true, [schedule.touchBrightness],
        { d with
          state := SchedulerState.AWAKE,
          wakeStartTime := now,
          wakeGraceEndTime := graceDeadline now,
          lastAppliedBrightness := schedule.touchBrightness }⟩ := by
    unfold onTouchDetected
    rw [if_neg (by simp [hen]), if_pos hdim]
  have hdl : graceDeadline now = now + WAKE_GRACE_PERIOD_MS := by
    unfold graceDeadline u32add
    exact Nat.mod_eq_of_lt hwrap
  rw [hwake]
  refine ⟨rfl, rfl, rfl, hdl, rfl, rfl, ?_, ?_⟩
  · intro now2 uiBrightness hlt
    have hgrace : graceActiveCheck now2 (graceDeadline now) = true := by
      unfold graceActiveCheck
      rw [hdl]
      simpa using hlt
    simp [shouldBlockButtons, hen, hgrace]
  · intro now3
    unfold onTouchDetected
    rw [if_neg (by simp [hen]), if_neg (by omega), if_pos rfl]

/-- Witness for the amended C5: a touch at 3 % brightness at tick 1000 with
the spec's example schedule is consumed. -/
theorem claim_C5_witness :
    (onTouchDetected exSchedule 3 1000 initialSchedulerData).consumed = true :=
  (claim_C5 exSchedule initialSchedulerData 3 1000 rfl (by decide) (by decide)
    (by decide)).1

/-- Helper: a scheduler state that already reflects the current clock and
configuration is a fixpoint of the brightness tick: no change is reported,
no brightness write is issued, and the state is untouched. -/
theorem brightnessUpdate_stable (display : DisplayConfig)
    (clock : ClockReading) (e : BrightnessSchedulerData)
    (h1 : ¬ display.schedule.enabled = false)
    (h2 : ¬ display.schedule.periods.length = 0)
    (h3 : ¬ clock.synced = false)
    (hA : ¬ (e.state = SchedulerState.AWAKE ∧
      wakeTimeoutCheck clock.millis e.wakeStartTime
        display.schedule.displayTimeout = true))
    (hPI : findActivePeriod display.schedule (getCurrentHour clock.localTime)
      (getCurrentMinute clock.localTime) = e.currentPeriodIndex)
    (hT : (if e.state = SchedulerState.AWAKE
        then display.schedule.touchBrightness
        else e.currentScheduledBrightness) = e.lastAppliedBrightness) :
    brightnessUpdate display clock e = ⟨false, [], e⟩ := by
  simp only [brightnessUpdate]
  rw [if_neg h1, if_neg h2, if_neg h3, if_neg hA, hPI]
  rw [if_neg (by simp : ¬ (e.currentPeriodIndex ≠ e.currentPeriodIndex))]
  rw [hT]
  rw [if_neg (by simp : ¬ (e.lastAppliedBrightness ≠ e.lastAppliedBrightness))]

/-- Helper: after one brightness tick with the schedule enabled, at least
one period, and the clock synced, the resulting scheduler state reflects the
clock and configuration: the wake timeout no longer fires, the cached period
index is current, and the applied brightness equals the target. -/
theorem brightnessUpdate_post (display : DisplayConfig)
    (clock : ClockReading) (d : BrightnessSchedulerData)
    (h1 : ¬ display.schedule.enabled = false)
    (h2 : ¬ display.schedule.periods.length = 0)
    (h3 : ¬ clock.synced = false) :
    ¬ ((brightnessUpdate display clock d).data.state = SchedulerState.AWAKE ∧
      wakeTimeoutCheck clock.millis
        (brightnessUpdate display clock d).data.wakeStartTime
        display.schedule.displayTimeout = true) ∧
    findActivePeriod display.schedule (getCurrentHour clock.localTime)
      (getCurrentMinute clock.localTime) =
      (brightnessUpdate display clock d).data.currentPeriodIndex ∧
    (if (brightnessUpdate display clock d).data.state = SchedulerState.AWAKE
      then display.schedule.touchBrightness
      else (brightnessUpdate display clock d).data.currentScheduledBrightness) =
      (brightnessUpdate display clock d).data.lastAppliedBrightness := by
  simp only [brightnessUpdate]
  rw [if_neg h1, if_neg h2, if_neg h3]
  split_ifs <;> simp_all

/-- Claim C6: brightness tick idempotence. For every configuration, clock
reading and scheduler state, running the brightness tick a second time with
unchanged clock and configuration reports no change, performs no second
hardware brightness write, and leaves the state of the first tick intact. -/
theorem claim_C6 (display : DisplayConfig) (clock : ClockReading)
    (d : BrightnessSchedulerData) :
    brightnessUpdate display clock (brightnessUpdate display clock d).data =
      ⟨false, [], (brightnessUpdate display clock d).data⟩ := by
  by_cases h1 : display.schedule.enabled = false
  · simp [brightnessUpdate, h1]
  by_cases h2 : display.schedule.periods.length = 0
  · simp [brightnessUpdate, h1, h2]
  by_cases h3 : clock.synced = false
  · by_cases h4 : d.lastAppliedBrightness ≠ 50
    · simp [brightnessUpdate, h1, h2, h3, h4]
    · simp [brightnessUpdate, h1, h2, h3, h4]
  · obtain ⟨p1, p2, p3⟩ := brightnessUpdate_post display clock d h1 h2 h3
    exact brightnessUpdate_stable display clock _ h1 h2 h3 p1 p2 p3

/-- Witness for C9: at the example schedule and query 12:00, the result is
in range and the brightness lookup bypasses the manual fallback. -/
theorem claim_C9_witness :
    0 ≤ findActivePeriod exSchedule 12 0 ∧
    findActivePeriod exSchedule 12 0 < (exSchedule.periods.length : Int) ∧
    getPeriodBrightness exSchedule 80 (findActivePeriod exSchedule 12 0) =
      (exSchedule.periods.getD (findActivePeriod exSchedule 12 0).toNat
        defaultPeriod).brightness :=
  (claim_C9 exSchedule 12 0 80).2 (by decide)
